import Mathlib

/-!
Verification of the actions-menu widget (`src/gameObjects/menus/ActionsMenu.ts`):
an abstract `ActionsMenu` base class and its `WeaponSelectorMenu` subclass.

The embedding keeps the state the TypeScript class stores in its own fields
(`tile`, `additionalButtons`, `allCurrentButtons`, `buttonsCount`, `cursorIndex`,
the layer visibility flag and the permanent-button container) and models the
engine-side effects that the claims observe (highlight add/remove, `pointerup`
emission, scene-bus events, `putTileAt` calls) as explicit result values.
Methods that can throw at runtime (indexing `undefined` out of an empty button
list, calling a method on the `undefined` returned by `hide()`) are modelled
with `Except String`.
-/

/-- A weapon from a unit inventory; the menu reads `weapon.name` and
`weapon.usage` for the button text. -/
structure Weapon where
  name : String
  usage : Nat
deriving DecidableEq, Repr

/-- A map tile handle.  The code reaches the weapons through
`tile.properties.tileUnit.getUnit().inventory.getWeapons()`; the embedding
flattens that engine-side chain to a `weapons` field. -/
structure Tile where
  id : Nat
  weapons : List Weapon
deriving DecidableEq, Repr

/-- A button container held in `allCurrentButtons` (each wraps an
`ActionButton` reachable via `getData`). -/
inductive Button where
  | cancel
  | weapon (w : Weapon)
  | generic (id : Nat)
deriving DecidableEq, Repr

/-- The `options` argument of `show` (`ActionsMenuShowOptions`). -/
structure ActionsMenuShowOptions where
  tile : Tile
deriving DecidableEq, Repr

/-- An event emitted on the scene event bus (`this.scene.events.emit`). -/
structure BusEvent where
  name : String
  payload : Option Tile
deriving DecidableEq, Repr

/-- An effect performed on a button object. -/
inductive UIEffect where
  | addHighlight (b : Button)
  | removeHighlight (b : Button)
  | pointerup (b : Button)
deriving DecidableEq, Repr

/-- The mutable fields of an `ActionsMenu` instance. -/
structure MenuState where
  /-- `this.tile` — unit tile (facultative). -/
  tile : Option Tile
  /-- `this.additionalButtons` — children of the last additional-buttons container. -/
  additionalButtons : Option (List Button)
  /-- `this.allCurrentButtons` — handles the keyboard cursor navigates. -/
  allCurrentButtons : List Button
  /-- `this.buttonsCount`. -/
  buttonsCount : Nat
  /-- `this.cursorIndex`. -/
  cursorIndex : Nat
  /-- `this.layer.visible` (what `isVisible()` reports). -/
  layerVisible : Bool
  /-- `this.permanentButtons.list` — children of the permanent container. -/
  permanentButtons : List Button
deriving DecidableEq, Repr

/-- The three fixed tile-code rows of a panel (`linesTiles`). -/
structure LinesTiles where
  top : List Nat
  middle : List Nat
  bottom : List Nat
deriving DecidableEq, Repr

/-- `linesTiles` of the abstract base class `ActionsMenu`. -/
def baseLinesTiles : LinesTiles :=
  { top := [2668, 2669, 2669, 2670]
    middle := [2698, 2699, 2699, 2700]
    bottom := [2728, 2729, 2729, 2730] }

/-- `linesTiles` override of `WeaponSelectorMenu`. -/
def weaponLinesTiles : LinesTiles :=
  { top := [2674, 2675, 2675, 2675, 2675, 2675, 2675, 2676]
    middle := [2704, 2705, 2705, 2705, 2705, 2705, 2705, 2706]
    bottom := [2734, 2735, 2735, 2735, 2735, 2735, 2735, 2736] }

/-- `getPanelWidth`: fold over `Object.entries(this.linesTiles)` (insertion
order top, middle, bottom) keeping the longest row length. -/
def getPanelWidth (lt : LinesTiles) : Nat :=
  [lt.top, lt.middle, lt.bottom].foldl
    (fun maxTilesWidth columns =>
      if columns.length > maxTilesWidth then columns.length else maxTilesWidth)
    0

/-- One `layer.putTileAt(code, x, y)` call. -/
structure TilePut where
  code : Nat
  x : Int
  y : Int
deriving DecidableEq, Repr

/-- Shared body of `createTopLine` / `createMiddleLine` / `createBottomLine`:
`columns.map((value, index) => this.layer.putTileAt(value, x + index, y))`. -/
def createLine (columns : List Nat) (x y : Int) : List TilePut :=
  columns.enum.map fun p => { code := p.2, x := x + p.1, y := y }

/-- `createTopLine(x, y)`. -/
def createTopLine (lt : LinesTiles) (x y : Int) : List TilePut :=
  createLine lt.top x y

/-- `createMiddleLine(x, y)`. -/
def createMiddleLine (lt : LinesTiles) (x y : Int) : List TilePut :=
  createLine lt.middle x y

/-- `createBottomLine(x, y)`. -/
def createBottomLine (lt : LinesTiles) (x y : Int) : List TilePut :=
  createLine lt.bottom x y

/-- `createContainer`, as the ordered sequence of `putTileAt` calls it issues.
`middleLineCount = Math.max(0, itemsCount - 2)`; `bottomY` starts at
`y + middleLineCount` and is incremented once per loop iteration, so the
bottom line lands at `y + middleLineCount + itemsCount`. -/
def createContainer (lt : LinesTiles) (x y : Int) (itemsCount : Nat) : List TilePut :=
  let middleLineCount : Int := max 0 ((itemsCount : Int) - 2)
  let bottomY : Int := y + middleLineCount + itemsCount
  createTopLine lt x y
    ++ (List.range itemsCount).flatMap (fun index => createMiddleLine lt x (y + index + 1))
    ++ createBottomLine lt x bottomY

/-- `getMenuCoord(cursor)`: start one tile right and down of the cursor, and
flip when the panel of width `panelWidth` and height `buttonsCount + 2` would
overflow the right or bottom map edge.  Note the method reads
`this.buttonsCount`, which `show` only updates after calling it. -/
def getMenuCoord (lt : LinesTiles) (mapWidth mapHeight : Nat) (buttonsCount : Nat)
    (cursorX cursorY : Nat) : Int × Int :=
  let panelWidth : Int := getPanelWidth lt
  let panelHeight : Int := (buttonsCount : Int) + 2
  let x0 : Int := (cursorX : Int) + 1
  let y0 : Int := (cursorY : Int) + 1
  let x : Int := if x0 + panelWidth > (mapWidth : Int) then x0 - (panelWidth + 1) else x0
  let y : Int := if y0 + panelHeight > (mapHeight : Int) then y0 - panelHeight else y0
  (x, y)

/-- `reinitializeProperties`: reset `buttonsCount`, `allCurrentButtons` and
`cursorIndex`; the `tile` and `additionalButtons` fields are not touched. -/
def reinitializeProperties (s : MenuState) : MenuState :=
  { s with buttonsCount := 0, allCurrentButtons := [], cursorIndex := 0 }

/-- `hide()`: make layer and buttons invisible, then run the chain
`destroyContainer / destroyAdditionalButtons / disableEvents /
removeOverEventButtons / enableMapEvents / reinitializeProperties`.  All but
the last act on engine objects (tiles, listeners, highlights) and change none
of the modelled fields; `destroyAdditionalButtons` destroys the child objects
but leaves `this.additionalButtons` assigned.  `hide()` itself has no return
statement, so in the source it evaluates to `undefined`. -/
def hide (s : MenuState) : MenuState :=
  reinitializeProperties { s with layerVisible := false }

/-- `cursorIndexChanged(newIndex)`: no-op when the index is unchanged;
otherwise fetch the previous and the new button to move the highlight.
`getData` on an out-of-range (`undefined`) entry throws.  (The source mutates
`this.cursorIndex` between the two lookups, so on the second throw the field
is already updated; no claim observes the state of that aborted call, and the
model reports only the error.) -/
def cursorIndexChanged (s : MenuState) (newIndex : Nat) : Except String MenuState :=
  if s.cursorIndex = newIndex then .ok s
  else
    match s.allCurrentButtons[s.cursorIndex]? with
    | none => .error "TypeError: previousButtonOvered is undefined"
    | some _ =>
      match s.allCurrentButtons[newIndex]? with
      | none => .error "TypeError: buttonOvered is undefined"
      | some _ => .ok { s with cursorIndex := newIndex }

/-- `keydownDOWN`: `newIndex = (cursorIndex + 1) % buttonsCount`.  When
`buttonsCount` is `0`, the JavaScript remainder yields `NaN`, and the button
lookup at that index inside `cursorIndexChanged` reads `undefined` and
throws. -/
def keydownDOWN (s : MenuState) : Except String MenuState :=
  if s.buttonsCount = 0 then .error "TypeError: NaN index"
  else cursorIndexChanged s ((s.cursorIndex + 1) % s.buttonsCount)

/-- `keydownUP`: `previousIndex = cursorIndex - 1`;
`newIndex = previousIndex < 0 ? buttonsCount - 1 : previousIndex`.  When
`buttonsCount` is `0` the ternary yields `-1` and the button lookup inside
`cursorIndexChanged` reads `undefined` and throws. -/
def keydownUP (s : MenuState) : Except String MenuState :=
  if s.buttonsCount = 0 then .error "TypeError: index -1 is undefined"
  else
    cursorIndexChanged s
      (if s.cursorIndex = 0 then s.buttonsCount - 1 else s.cursorIndex - 1)

/-- `keydownENTER`: fetch `allCurrentButtons[cursorIndex]`, remove its
highlight and emit `pointerup` on it; an out-of-range index throws. -/
def keydownENTER (s : MenuState) : Except String (List UIEffect) :=
  match s.allCurrentButtons[s.cursorIndex]? with
  | none => .error "TypeError: buttonOver is undefined"
  | some b => .ok [.removeHighlight b, .pointerup b]

/-- `highlightFirstButton`: read `allCurrentButtons[0]` and add its highlight;
on an empty list the element is `undefined` and `getData` throws. -/
def highlightFirstButton (s : MenuState) : Except String (List UIEffect) :=
  match s.allCurrentButtons[0]? with
  | none => .error "TypeError: firstButton is undefined"
  | some b => .ok [.addHighlight b]

/-- `show(cursor, options?)`, with the abstract `createAdditionalButtons`
passed as the factory `createAdditional` (the subclass reads `this.tile`).
Stores `options.tile` when options are passed, makes the layer visible, builds
the additional buttons, and sets `allCurrentButtons` and `buttonsCount`.
`containerButtons.concat(containerAddButtons)` calls `Array.prototype.concat`,
which returns a fresh array; the source discards that result, so
`containerButtons` stays the permanent-button children — the line is kept here
as the unused `_concatResult`.  `getMenuCoord`, `createContainer` and
`showButtons` paint engine objects (modelled separately) and do not change
these fields; `highlightFirstButton` can throw and aborts the chain before
`enableEvents`. -/
def showMenu (createAdditional : Option Tile → List Button) (s : MenuState)
    (options : Option ActionsMenuShowOptions) : Except String MenuState :=
  let s1 : MenuState :=
    match options with
    | some o => { s with tile := some o.tile }
    | none => s
  let s2 : MenuState := { s1 with layerVisible := true }
  let containerButtons := s2.permanentButtons
  let containerAddButtons := createAdditional s2.tile
  let s3 : MenuState := { s2 with additionalButtons := some containerAddButtons }
  let _concatResult := containerButtons ++ containerAddButtons
  let s4 : MenuState :=
    { s3 with allCurrentButtons := containerButtons, buttonsCount := containerButtons.length }
  match highlightFirstButton s4 with
  | .error e => .error e
  | .ok _ => .ok s4

/-- Modelled from the spec: `eventName` imported from
`src/actions/weaponSelector` (file not present under `src/`) — the per-menu
-type prefix from which the bus event name is built. -/
def weaponSelectorEvent : String := "weaponSelector"

/-- Modelled from the spec: `WeaponSelectorActions.cancel` imported from
`src/actions/weaponSelector` (file not present under `src/`) — the action
identifier appended to the prefix when cancelling. -/
def WeaponSelectorActions.cancel : String := "cancel"

/-- `WeaponSelectorMenu.sendAction(action)`:
`this.scene.events.emit(weaponSelectorEvent + action, this.tile)`. -/
def sendAction (s : MenuState) (action : String) : BusEvent :=
  { name := weaponSelectorEvent ++ action, payload := s.tile }

/-- `WeaponSelectorMenu.createAdditionalButtons`: an empty container when
`this.tile` is unset; otherwise one weapon button per entry of the unit
inventory (the `(0, (index + 1) * 30)` coordinates only place the widget and
are engine-side). -/
def WeaponSelectorMenu.createAdditionalButtons (tile : Option Tile) : List Button :=
  match tile with
  | none => []
  | some t => t.weapons.map Button.weapon

/-- `WeaponSelectorMenu.createPermanentButtons`: a container holding only the
cancel button. -/
def WeaponSelectorMenu.createPermanentButtons : List Button :=
  [Button.cancel]

/-- The `onClick` of a weapon button: `this.hide(); console.log(weapon);` —
the menu is hidden and nothing is emitted on the scene event bus
(`console.log` is not a bus event). -/
def weaponOnClick (s : MenuState) (_w : Weapon) : MenuState × List BusEvent :=
  (hide s, [])

/-- The `onClick` of the cancel button:
`this.hide().sendAction(WeaponSelectorActions.cancel)`.  `hide()` has no
return statement, so it evaluates to `undefined`; after the menu is hidden the
`.sendAction` access throws and no bus event is emitted. -/
def cancelOnClick (s : MenuState) : MenuState × Except String (List BusEvent) :=
  (hide s, .error "TypeError: cannot read sendAction of undefined")

/-! ## Sample data for concrete evaluations -/

/-- A sample inventory weapon. -/
def sampleWeapon : Weapon := { name := "sword", usage := 40 }

/-- A sample unit tile whose inventory holds one weapon. -/
def sampleTile : Tile := { id := 0, weapons := [sampleWeapon] }

/-- The state of a freshly constructed (or hidden) `WeaponSelectorMenu`. -/
def freshMenu : MenuState :=
  { tile := none
    additionalButtons := none
    allCurrentButtons := []
    buttonsCount := 0
    cursorIndex := 0
    layerVisible := false
    permanentButtons := WeaponSelectorMenu.createPermanentButtons }

/-! ## Claim theorems -/

/-- C1: with `P = 1` permanent button (cancel) and `N = 1` additional weapon
button, `show` is claimed to leave `N + P = 2` entries in `allCurrentButtons`
and `buttonsCount = 2`.  The code instead discards the result of
`containerButtons.concat(containerAddButtons)` (`Array.prototype.concat` does
not mutate), so the navigable list stays `[cancel]` and `buttonsCount = 1`,
even though one additional button was built and is displayed. -/
theorem show_discards_additional_buttons :
    WeaponSelectorMenu.createAdditionalButtons (some sampleTile)
        = [Button.weapon sampleWeapon]
  ∧ showMenu WeaponSelectorMenu.createAdditionalButtons freshMenu
        (some { tile := sampleTile })
      = .ok { tile := some sampleTile
              additionalButtons := some [Button.weapon sampleWeapon]
              allCurrentButtons := [Button.cancel]
              buttonsCount := 1
              cursorIndex := 0
              layerVisible := true
              permanentButtons := [Button.cancel] }
  ∧ WeaponSelectorMenu.createPermanentButtons.length
      + (WeaponSelectorMenu.createAdditionalButtons (some sampleTile)).length = 2 := by
  refine ⟨rfl, rfl, rfl⟩

/-- C2: the claim says every button of the weapon-selection menu emits a
domain action event and then hides the menu.  In the code a weapon button
hides the menu and only `console.log`s the weapon — no bus event — and the
cancel button hides the menu and then throws (its `this.hide().sendAction(…)`
chain calls `.sendAction` on the `undefined` returned by `hide()`), so it
emits nothing either. -/
theorem weapon_button_click_emits_no_event :
    weaponOnClick freshMenu sampleWeapon = (hide freshMenu, [])
  ∧ (cancelOnClick freshMenu).1 = hide freshMenu
  ∧ (cancelOnClick freshMenu).2
      = .error "TypeError: cannot read sendAction of undefined" := by
  refine ⟨rfl, rfl, rfl⟩

/-- C3: the claim puts the bottom border row at `y + itemsCount + 1`.  With
`itemsCount = 1` at `(x, y) = (0, 0)` the code paints no tile at row `2`: the
bottom line lands at row `1` (`y + max(0, itemsCount - 2) + itemsCount`),
painted after — and over — the single middle row. -/
theorem createContainer_bottom_row_misplaced :
    (createContainer baseLinesTiles 0 0 1).filter (fun p => p.y == 2) = []
  ∧ (createContainer baseLinesTiles 0 0 1).filter (fun p => p.y == 1)
      = createMiddleLine baseLinesTiles 0 1 ++ createBottomLine baseLinesTiles 0 1
  ∧ (createContainer baseLinesTiles 0 0 1).filter (fun p => p.y == 0)
      = createTopLine baseLinesTiles 0 0 := by
  refine ⟨rfl, rfl, rfl⟩

/-- C4 counterexample: on a 10 by 10 map, the in-map reference tile `(0, 8)`
with `buttonsCount = 9` makes `getMenuCoord` return `y = -2`: the
bottom-overflow shift `y - panelHeight` goes past the top edge, so the panel
rectangle is not inside the map. -/
theorem getMenuCoord_can_underflow :
    getMenuCoord baseLinesTiles 10 10 9 0 8 = (1, -2)
  ∧ (getMenuCoord baseLinesTiles 10 10 9 0 8).2 < 0
  ∧ 0 < 10 ∧ 8 < 10 := by
  refine ⟨rfl, by decide, by decide, by decide⟩

/-- C7: `hide()` always resets `buttonsCount` to 0, the cursor index to 0 and
empties the navigable button list, whatever the prior state. -/
theorem hide_resets_state (s : MenuState) :
    (hide s).buttonsCount = 0 ∧ (hide s).cursorIndex = 0
  ∧ (hide s).allCurrentButtons = [] := ⟨rfl, rfl, rfl⟩

/-! ## Helper lemmas -/

/-- When both the previous and the new cursor index are in range,
`cursorIndexChanged` succeeds and only moves the cursor. -/
theorem cursorIndexChanged_ok (s : MenuState) (n : Nat)
    (h1 : s.cursorIndex < s.allCurrentButtons.length)
    (h2 : n < s.allCurrentButtons.length) :
    cursorIndexChanged s n = .ok { s with cursorIndex := n } := by
  by_cases he : s.cursorIndex = n
  · subst he
    simp [cursorIndexChanged]
  · rw [cursorIndexChanged, if_neg he,
      List.getElem?_eq_getElem h1, List.getElem?_eq_getElem h2]

/-- When the cursor is in range, `keydownDOWN` succeeds and moves the cursor
to `(cursorIndex + 1) % buttonsCount`. -/
theorem keydownDOWN_ok (s : MenuState) (h1 : s.cursorIndex < s.buttonsCount)
    (hw : s.allCurrentButtons.length = s.buttonsCount) :
    keydownDOWN s = .ok { s with cursorIndex := (s.cursorIndex + 1) % s.buttonsCount } := by
  rw [keydownDOWN, if_neg (by omega : ¬s.buttonsCount = 0)]
  exact cursorIndexChanged_ok s _ (by omega)
    (by rw [hw]; exact Nat.mod_lt _ (by omega))

/-- When the cursor is in range, `keydownUP` succeeds and moves the cursor to
`(cursorIndex + buttonsCount - 1) % buttonsCount`. -/
theorem keydownUP_ok (s : MenuState) (h1 : s.cursorIndex < s.buttonsCount)
    (hw : s.allCurrentButtons.length = s.buttonsCount) :
    keydownUP s
      = .ok { s with
              cursorIndex := (s.cursorIndex + s.buttonsCount - 1) % s.buttonsCount } := by
  rw [keydownUP, if_neg (by omega : ¬s.buttonsCount = 0)]
  have hidx : (if s.cursorIndex = 0 then s.buttonsCount - 1 else s.cursorIndex - 1)
      = (s.cursorIndex + s.buttonsCount - 1) % s.buttonsCount := by
    by_cases h0 : s.cursorIndex = 0
    · rw [if_pos h0, h0]
      have hz : 0 + s.buttonsCount - 1 = s.buttonsCount - 1 := by omega
      rw [hz, Nat.mod_eq_of_lt (by omega)]
    · rw [if_neg h0]
      have hz : s.cursorIndex + s.buttonsCount - 1 = (s.cursorIndex - 1) + s.buttonsCount := by
        omega
      rw [hz, Nat.add_mod_right, Nat.mod_eq_of_lt (by omega)]
  rw [hidx]
  exact cursorIndexChanged_ok s _ (by omega)
    (by rw [hw]; exact Nat.mod_lt _ (by omega))

/-- Arithmetic of a DOWN step followed by an UP step. -/
theorem down_then_up_index (i c : Nat) (h : i < c) :
    ((i + 1) % c + c - 1) % c = i := by
  rcases Nat.lt_or_ge (i + 1) c with hlt | hge
  · rw [Nat.mod_eq_of_lt hlt]
    have hz : i + 1 + c - 1 = i + c := by omega
    rw [hz, Nat.add_mod_right, Nat.mod_eq_of_lt h]
  · have hc : i + 1 = c := by omega
    rw [hc, Nat.mod_self]
    have hz : 0 + c - 1 = c - 1 := by omega
    rw [hz, Nat.mod_eq_of_lt (by omega)]
    omega

/-- Arithmetic of an UP step followed by a DOWN step. -/
theorem up_then_down_index (i c : Nat) (h : i < c) :
    ((i + c - 1) % c + 1) % c = i := by
  by_cases h0 : i = 0
  · subst h0
    have hz : 0 + c - 1 = c - 1 := by omega
    have hinner : (c - 1) % c = c - 1 := Nat.mod_eq_of_lt (by omega)
    have hz2 : c - 1 + 1 = c := by omega
    rw [hz, hinner, hz2, Nat.mod_self]
  · have hz : i + c - 1 = (i - 1) + c := by omega
    have hinner : (i - 1) % c = i - 1 := Nat.mod_eq_of_lt (by omega)
    have hz2 : i - 1 + 1 = i := by omega
    rw [hz, Nat.add_mod_right, hinner, hz2, Nat.mod_eq_of_lt h]

/-- When the permanent container has children, `showMenu` succeeds and its
resulting state is fully determined. -/
theorem showMenu_ok (f : Option Tile → List Button) (s : MenuState)
    (o : Option ActionsMenuShowOptions) (hp : s.permanentButtons ≠ []) :
    showMenu f s o
      = .ok { tile := match o with | some oo => some oo.tile | none => s.tile
              additionalButtons :=
                some (f (match o with | some oo => some oo.tile | none => s.tile))
              allCurrentButtons := s.permanentButtons
              buttonsCount := s.permanentButtons.length
              cursorIndex := s.cursorIndex
              layerVisible := true
              permanentButtons := s.permanentButtons } := by
  rcases hl : s.permanentButtons with _ | ⟨b, l⟩
  · exact absurd hl hp
  · cases o <;> simp [showMenu, highlightFirstButton, hl]

/-- When the permanent container is empty, `showMenu` throws inside
`highlightFirstButton`. -/
theorem showMenu_err (f : Option Tile → List Button) (s : MenuState)
    (o : Option ActionsMenuShowOptions) (hp : s.permanentButtons = []) :
    showMenu f s o = .error "TypeError: firstButton is undefined" := by
  cases o <;> simp [showMenu, highlightFirstButton, hp]

/-- A sample shown-menu state with three navigable buttons, cursor at 1. -/
def navMenu : MenuState :=
  { tile := none
    additionalButtons := none
    allCurrentButtons := [Button.generic 0, Button.generic 1, Button.generic 2]
    buttonsCount := 3
    cursorIndex := 1
    layerVisible := true
    permanentButtons := [Button.generic 0, Button.generic 1, Button.generic 2] }

/-- C4 (amended): for a reference tile inside the map, `getMenuCoord` keeps
the panel rectangle (width `panelWidth`, height `buttonsCount + 2`) inside the
map bounds provided the map is at least twice the panel width wide and at
least `2 * (buttonsCount + 2) - 1` tiles tall; without those margins the
overflow shifts can push the coordinates negative. -/
theorem getMenuCoord_in_bounds (lt : LinesTiles) (mapW mapH count cx cy : Nat)
    (hx : cx < mapW) (hy : cy < mapH)
    (hW : 2 * getPanelWidth lt ≤ mapW) (hH : 2 * (count + 2) - 1 ≤ mapH) :
    0 ≤ (getMenuCoord lt mapW mapH count cx cy).1
  ∧ (getMenuCoord lt mapW mapH count cx cy).1 + (getPanelWidth lt : Int) ≤ (mapW : Int)
  ∧ 0 ≤ (getMenuCoord lt mapW mapH count cx cy).2
  ∧ (getMenuCoord lt mapW mapH count cx cy).2 + ((count : Int) + 2) ≤ (mapH : Int) := by
  simp only [getMenuCoord]
  split_ifs with h1 h2 h2 <;> omega

/-- C4 witness: a 10 by 10 map, the base panel (width 4), two buttons and the
reference tile `(5, 5)` satisfy the margins, and the panel stays in bounds. -/
theorem getMenuCoord_in_bounds_witness :
    (5 < 10 ∧ 5 < 10 ∧ 2 * getPanelWidth baseLinesTiles ≤ 10 ∧ 2 * (2 + 2) - 1 ≤ 10)
  ∧ (0 ≤ (getMenuCoord baseLinesTiles 10 10 2 5 5).1
     ∧ (getMenuCoord baseLinesTiles 10 10 2 5 5).1 + (getPanelWidth baseLinesTiles : Int) ≤ (10 : Int)
     ∧ 0 ≤ (getMenuCoord baseLinesTiles 10 10 2 5 5).2
     ∧ (getMenuCoord baseLinesTiles 10 10 2 5 5).2 + ((2 : Int) + 2) ≤ (10 : Int)) :=
  ⟨by decide,
   getMenuCoord_in_bounds baseLinesTiles 10 10 2 5 5 (by decide) (by decide)
     (by decide) (by decide)⟩

/-- C5: with at least one button and the cursor in range, DOWN moves the
cursor from `i` to `(i + 1) % buttonsCount`, UP moves it to
`(i - 1 + buttonsCount) % buttonsCount` (written with the addition first so
the subtraction cannot truncate), both stay inside `[0, buttonsCount)`, and
when `buttonsCount > 1` a DOWN followed by an UP — and an UP followed by a
DOWN — restores the original state. -/
theorem cursor_navigation_mod (s : MenuState) (h1 : 1 ≤ s.buttonsCount)
    (h2 : s.cursorIndex < s.buttonsCount)
    (hw : s.allCurrentButtons.length = s.buttonsCount) :
    keydownDOWN s = .ok { s with cursorIndex := (s.cursorIndex + 1) % s.buttonsCount }
  ∧ keydownUP s
      = .ok { s with cursorIndex := (s.cursorIndex + s.buttonsCount - 1) % s.buttonsCount }
  ∧ (s.cursorIndex + 1) % s.buttonsCount < s.buttonsCount
  ∧ (s.cursorIndex + s.buttonsCount - 1) % s.buttonsCount < s.buttonsCount
  ∧ (1 < s.buttonsCount →
        (keydownDOWN s).bind keydownUP = .ok s
      ∧ (keydownUP s).bind keydownDOWN = .ok s) := by
  refine ⟨keydownDOWN_ok s h2 hw, keydownUP_ok s h2 hw,
    Nat.mod_lt _ (by omega), Nat.mod_lt _ (by omega), fun _ => ⟨?_, ?_⟩⟩
  · rw [keydownDOWN_ok s h2 hw, Except.bind]
    have hstep := keydownUP_ok
      { s with cursorIndex := (s.cursorIndex + 1) % s.buttonsCount }
      (Nat.mod_lt _ (by omega)) hw
    rw [hstep]
    rw [down_then_up_index s.cursorIndex s.buttonsCount h2]
  · rw [keydownUP_ok s h2 hw, Except.bind]
    have hstep := keydownDOWN_ok
      { s with cursorIndex := (s.cursorIndex + s.buttonsCount - 1) % s.buttonsCount }
      (Nat.mod_lt _ (by omega)) hw
    rw [hstep]
    rw [up_then_down_index s.cursorIndex s.buttonsCount h2]

/-- C5 witness: on the three-button state with cursor 1, DOWN lands on 2, UP
lands on 0, and both round trips restore the state. -/
theorem cursor_navigation_mod_witness :
    (1 ≤ navMenu.buttonsCount ∧ navMenu.cursorIndex < navMenu.buttonsCount
      ∧ navMenu.allCurrentButtons.length = navMenu.buttonsCount)
  ∧ (keydownDOWN navMenu).bind keydownUP = .ok navMenu
  ∧ (keydownUP navMenu).bind keydownDOWN = .ok navMenu :=
  ⟨by decide,
   (cursor_navigation_mod navMenu (by decide) (by decide) rfl).2.2.2.2 (by decide)⟩

/-- C6: ENTER reads exactly the button at the current cursor index, removes
its highlight and emits `pointerup` on it — the effect list names no other
button. -/
theorem keydownENTER_activates_cursor_button (s : MenuState)
    (h : s.cursorIndex < s.allCurrentButtons.length) :
    keydownENTER s
      = .ok [UIEffect.removeHighlight s.allCurrentButtons[s.cursorIndex],
             UIEffect.pointerup s.allCurrentButtons[s.cursorIndex]] := by
  rw [keydownENTER, List.getElem?_eq_getElem h]

/-- C6 witness: on the three-button state with cursor 1, ENTER acts on button
`generic 1` only. -/
theorem keydownENTER_activates_cursor_button_witness :
    navMenu.cursorIndex < navMenu.allCurrentButtons.length
  ∧ keydownENTER navMenu
      = .ok [UIEffect.removeHighlight (Button.generic 1),
             UIEffect.pointerup (Button.generic 1)] :=
  ⟨by decide, keydownENTER_activates_cursor_button navMenu (by decide)⟩

/-- C8: with no stored context tile, `WeaponSelectorMenu.createAdditionalButtons`
returns an empty container, and showing the menu without options succeeds,
leaving exactly the permanent buttons in the navigable list. -/
theorem show_without_tile_succeeds (s : MenuState) (ht : s.tile = none)
    (hp : s.permanentButtons ≠ []) :
    WeaponSelectorMenu.createAdditionalButtons s.tile = []
  ∧ ∃ s2, showMenu WeaponSelectorMenu.createAdditionalButtons s none = .ok s2
      ∧ s2.allCurrentButtons = s.permanentButtons
      ∧ s2.buttonsCount = s.permanentButtons.length
      ∧ s2.additionalButtons = some [] := by
  refine ⟨by rw [ht]; rfl, ?_⟩
  refine ⟨_, showMenu_ok WeaponSelectorMenu.createAdditionalButtons s none hp,
    rfl, rfl, ?_⟩
  rw [ht]
  rfl

/-- C8 witness: the fresh weapon-selector state has no tile, and showing it
without options yields just the cancel button. -/
theorem show_without_tile_succeeds_witness :
    (freshMenu.tile = none ∧ freshMenu.permanentButtons ≠ [])
  ∧ (WeaponSelectorMenu.createAdditionalButtons freshMenu.tile = []
     ∧ ∃ s2, showMenu WeaponSelectorMenu.createAdditionalButtons freshMenu none = .ok s2
        ∧ s2.allCurrentButtons = freshMenu.permanentButtons
        ∧ s2.buttonsCount = freshMenu.permanentButtons.length
        ∧ s2.additionalButtons = some []) :=
  ⟨⟨rfl, by decide⟩, show_without_tile_succeeds freshMenu rfl (by decide)⟩

/-- C9: neither `show` nor the navigation guards against an empty button
list: `showMenu` succeeds exactly when the permanent container is nonempty;
with `buttonsCount = 0` both `highlightFirstButton` and `keydownDOWN` throw;
and with at least one button and the cursor in range both succeed. -/
theorem navigation_requires_nonempty_buttons (s : MenuState)
    (f : Option Tile → List Button) (o : Option ActionsMenuShowOptions)
    (hw : s.allCurrentButtons.length = s.buttonsCount) :
    ((∃ s2, showMenu f s o = .ok s2) ↔ s.permanentButtons ≠ [])
  ∧ (s.buttonsCount = 0 →
        (∃ e, highlightFirstButton s = .error e)
      ∧ (∃ e, keydownDOWN s = .error e))
  ∧ (s.cursorIndex < s.buttonsCount →
        (∃ effs, highlightFirstButton s = .ok effs)
      ∧ (∃ s2, keydownDOWN s = .ok s2)) := by
  refine ⟨⟨?_, ?_⟩, ?_, ?_⟩
  · rintro ⟨s2, h2⟩ hnil
    rw [showMenu_err f s o hnil] at h2
    exact Except.noConfusion h2
  · intro hp
    exact ⟨_, showMenu_ok f s o hp⟩
  · intro hc
    have hnil : s.allCurrentButtons = [] := List.eq_nil_of_length_eq_zero (hw.trans hc)
    refine ⟨⟨"TypeError: firstButton is undefined", ?_⟩,
      ⟨"TypeError: NaN index", by rw [keydownDOWN, if_pos hc]⟩⟩
    rw [highlightFirstButton, hnil]
    rfl
  · intro hc
    have h0 : 0 < s.allCurrentButtons.length := by omega
    refine ⟨⟨[UIEffect.addHighlight s.allCurrentButtons[0]], ?_⟩,
      ⟨_, keydownDOWN_ok s hc hw⟩⟩
    rw [highlightFirstButton, List.getElem?_eq_getElem h0]

/-- C9 witness: the three-button state navigates fine, and a shown
weapon-selector menu is obtainable because its permanent container holds the
cancel button. -/
theorem navigation_requires_nonempty_buttons_witness :
    navMenu.allCurrentButtons.length = navMenu.buttonsCount
  ∧ ((∃ s2, showMenu WeaponSelectorMenu.createAdditionalButtons navMenu none = .ok s2)
        ↔ navMenu.permanentButtons ≠ [])
  ∧ (navMenu.cursorIndex < navMenu.buttonsCount →
        (∃ effs, highlightFirstButton navMenu = .ok effs)
      ∧ (∃ s2, keydownDOWN navMenu = .ok s2)) :=
  ⟨rfl,
   (navigation_requires_nonempty_buttons navMenu
      WeaponSelectorMenu.createAdditionalButtons none rfl).1,
   (navigation_requires_nonempty_buttons navMenu
      WeaponSelectorMenu.createAdditionalButtons none rfl).2.2⟩

/-- C10: `hide()` leaves the stored tile unchanged; `showMenu` without
options keeps the previous tile, and with options overwrites it; and
`sendAction` emits the bus event named from the weapon-selector prefix plus
the action, carrying the currently stored (possibly stale) tile as payload. -/
theorem tile_persists_and_sendAction_payload (s : MenuState)
    (f : Option Tile → List Button) (o : ActionsMenuShowOptions) (a : String)
    (hp : s.permanentButtons ≠ []) :
    (hide s).tile = s.tile
  ∧ (∃ s1, showMenu f s none = .ok s1 ∧ s1.tile = s.tile)
  ∧ (∃ s2, showMenu f s (some o) = .ok s2 ∧ s2.tile = some o.tile)
  ∧ sendAction s a = { name := weaponSelectorEvent ++ a, payload := s.tile } :=
  ⟨rfl, ⟨_, showMenu_ok f s none hp, rfl⟩,
   ⟨_, showMenu_ok f s (some o) hp, rfl⟩, rfl⟩

/-- C10 witness: on the fresh weapon-selector state, hide keeps the tile,
re-showing without options keeps it, showing with the sample tile stores it,
and cancel would be emitted with the stored tile as payload. -/
theorem tile_persists_and_sendAction_payload_witness :
    freshMenu.permanentButtons ≠ []
  ∧ ((hide freshMenu).tile = freshMenu.tile
     ∧ (∃ s1, showMenu WeaponSelectorMenu.createAdditionalButtons freshMenu none = .ok s1
          ∧ s1.tile = freshMenu.tile)
     ∧ (∃ s2, showMenu WeaponSelectorMenu.createAdditionalButtons freshMenu
            (some { tile := sampleTile }) = .ok s2 ∧ s2.tile = some sampleTile)
     ∧ sendAction freshMenu WeaponSelectorActions.cancel
         = { name := weaponSelectorEvent ++ WeaponSelectorActions.cancel
             payload := freshMenu.tile }) :=
  ⟨by decide,
   tile_persists_and_sendAction_payload freshMenu
     WeaponSelectorMenu.createAdditionalButtons { tile := sampleTile }
     WeaponSelectorActions.cancel (by decide)⟩
